import Mathlib

set_option linter.unusedVariables false

/-!
Shallow embedding of the variant-generation core of the EtoXPlatform backend
(`backend/variant_generator.py`), together with the semantics of the SQL
statements it issues against the `exercises`, `variants` and
`variant_exercises` tables.

Modelling conventions:
* UUIDs are modelled as `Nat`.
* Nullable SQL columns are `Option _`; an SQL comparison with a NULL operand
  yields UNKNOWN, which a WHERE clause treats as not-selected — each
  predicate below makes this explicit.
* `ORDER BY RANDOM()` is modelled by passing the table contents in the
  random visiting order chosen by the database: every query over
  `exercises` takes a `List Exercise` argument that is the table in the
  random order of that particular query.  One call of
  `_select_exercises_for_subject` issues up to two such queries (strict,
  then relaxed), hence receives two orders.
* Every write helper of the Python class executes one statement and then
  commits (`self.conn.commit()` after each statement).  Persistence
  failures are injected through an oracle over the index of the write
  statement: a statement whose index fires raises before taking effect,
  and the store threaded through `runWrites` is always the committed state.
-/

namespace EtoX

/-- One row of the `exercises` table, restricted to the columns the variant
generator reads.  `tags` models the set of tag keys associated with the
exercise through the tag association table (the generator never queries
that table). -/
structure Exercise where
  id : Nat
  difficulty : Option Int
  status : Option String
  item_type : Option String
  exam_type : Option String
  tags : List String
  deriving DecidableEq, Repr

/-- One subject entry of an exam structure.  In the source
(`ExamStructure.subjects`) these are Python dicts; keys that some dicts
omit (`has_variants`, `variants_per_problem`) are modelled with `Bool`
and `Option Nat`, matching the dict.get defaults used at each read site. -/
structure Subject where
  name : String
  item_type : String
  count : Nat
  has_variants : Bool
  variants_per_problem : Option Nat
  points_each : Nat
  subject_parts : List String
  deriving DecidableEq, Repr

/-- `ExamStructure` (variant_generator.py lines 11-15). -/
structure ExamStructure where
  exam_type : String
  subjects : List Subject
  deriving DecidableEq, Repr

/-- `ExamStructure.get_bacalaureat_structure` (lines 17-50).  The source
accepts a profile argument and ignores it. -/
def get_bacalaureat_structure (profile : String) : ExamStructure :=
  { exam_type := "bacalaureat",
    subjects := [
      { name := "Subiectul I", item_type := "subiect_1", count := 6,
        has_variants := false, variants_per_problem := none, points_each := 5,
        subject_parts := ["algebra", "analiza", "geometrie"] },
      { name := "Subiectul II", item_type := "subiect_2", count := 2,
        has_variants := true, variants_per_problem := some 3, points_each := 15,
        subject_parts := ["algebra", "analiza"] },
      { name := "Subiectul III", item_type := "subiect_3", count := 2,
        has_variants := true, variants_per_problem := some 3, points_each := 15,
        subject_parts := ["geometrie", "trigonometrie"] } ] }

/-- `ExamStructure.get_evaluare_nationala_structure` (lines 52-75). -/
def get_evaluare_nationala_structure : ExamStructure :=
  { exam_type := "evaluare_nationala",
    subjects := [
      { name := "Subiectul I", item_type := "subiect_1", count := 6,
        has_variants := false, variants_per_problem := none, points_each := 5,
        subject_parts := ["algebra", "geometrie", "probabilitati"] },
      { name := "Subiectul II", item_type := "subiect_2", count := 3,
        has_variants := false, variants_per_problem := none, points_each := 10,
        subject_parts := ["algebra", "geometrie"] } ] }

/-- One row of the `variants` table (only the columns the generator
writes). -/
structure VariantRow where
  id : Nat
  name : String
  exam_type : String
  profile : Option String
  year : Option Int
  session : Option String
  duration_minutes : Nat
  status : String
  total_points : Option Nat
  deriving DecidableEq, Repr

/-- One row of the `variant_exercises` table. -/
structure VERow where
  variant_id : Nat
  exercise_id : Nat
  order_index : Nat
  section_name : String
  deriving DecidableEq, Repr

/-- The mutable part of the data store the generator writes to. -/
structure Store where
  variants : List VariantRow
  variant_exercises : List VERow
  deriving DecidableEq, Repr

/-- SQL `difficulty >= lo AND difficulty <= hi` (lines 220-221): a NULL
difficulty makes both comparisons UNKNOWN, so the row is not selected. -/
def diffCond (lo hi : Int) (e : Exercise) : Bool :=
  match e.difficulty with
  | none => false
  | some d => decide (lo ≤ d) && decide (d ≤ hi)

/-- SQL `(status != 'ARCHIVED' OR status IS NULL)` (line 222). -/
def statusCond (e : Exercise) : Bool :=
  match e.status with
  | none => true
  | some s => s != "ARCHIVED"

/-- SQL `(item_type = %s OR item_type = 'exercitiu' OR item_type IS NULL)`
(line 227). -/
def itemTypeCond (it : String) (e : Exercise) : Bool :=
  match e.item_type with
  | none => true
  | some t => t == it || t == "exercitiu"

/-- SQL `(exam_type = %s OR exam_type IS NULL)` (line 233). -/
def examTypeCond (et : String) (e : Exercise) : Bool :=
  match e.exam_type with
  | none => true
  | some t => t == et

/-- The strict WHERE clause assembled in `_select_exercises_for_subject`
(lines 219-236).  The exam_type conjunct is appended only when the Python
string is truthy, i.e. non-empty (`if exam_type:`, line 232). -/
def strictCond (it et : String) (lo hi : Int) (e : Exercise) : Bool :=
  diffCond lo hi e && statusCond e && itemTypeCond it e &&
    (if et == "" then true else examTypeCond et e)

/-- The relaxed WHERE clause (lines 256-264): only the difficulty range and
the not-archived condition remain. -/
def relaxedCond (lo hi : Int) (e : Exercise) : Bool :=
  diffCond lo hi e && statusCond e

/-- `SELECT id FROM exercises WHERE cond ORDER BY RANDOM() LIMIT n`, where
`tbl` is the table in the random visiting order of this query. -/
def runQuery (tbl : List Exercise) (cond : Exercise → Bool) (n : Nat) : List Nat :=
  ((tbl.filter cond).take n).map Exercise.id

/-- The slot count requested from the query (lines 211-216):
`count`, multiplied by `subject.get("variants_per_problem", 3)` when the
subject has sub-variants. -/
def count_needed (s : Subject) : Nat :=
  if s.has_variants then s.count * s.variants_per_problem.getD 3 else s.count

/-- `VariantGenerator._select_exercises_for_subject` (lines 199-268).
`tbl` and `tblR` are the `exercises` table in the random orders of the
strict and of the relaxed query.  `preferred_tags` and `exclude_tags` are
accepted — exactly as in the source — but no condition ever reads them. -/
def select_exercises_for_subject (tbl tblR : List Exercise) (s : Subject)
    (exam_type : String) (lo hi : Int)
    (preferred_tags exclude_tags : Option (List String)) : List Nat :=
  let n := count_needed s
  let results := runQuery tbl (strictCond s.item_type exam_type lo hi) n
  if results.length < n then runQuery tblR (relaxedCond lo hi) n
  else results

/-- The three kinds of write statement `generate_variant` issues. -/
inductive WriteOp where
  | createVariant : VariantRow → WriteOp
  | insertVE : VERow → WriteOp
  | updatePoints : Nat → Nat → WriteOp
  deriving DecidableEq, Repr

/-- Whether `variant_exercises` already holds a row for the given
`(variant_id, exercise_id)` pair — the key of the
`ON CONFLICT (variant_id, exercise_id)` clause (line 281). -/
def hasPair (st : Store) (r : VERow) : Bool :=
  st.variant_exercises.any fun x =>
    x.variant_id == r.variant_id && x.exercise_id == r.exercise_id

/-- Effect of one committed statement.
* `createVariant`: the INSERT of `_create_variant_entry` (lines 185-189).
* `insertVE`: the INSERT with `ON CONFLICT (variant_id, exercise_id) DO
  NOTHING` of `_add_exercise_to_variant` (lines 278-282) — a conflicting
  row is silently dropped.
* `updatePoints`: the UPDATE of `_update_variant_points` (line 290). -/
def applyOp (st : Store) : WriteOp → Store
  | .createVariant v => { st with variants := st.variants ++ [v] }
  | .insertVE r =>
      if hasPair st r then st
      else { st with variant_exercises := st.variant_exercises ++ [r] }
  | .updatePoints vid p =>
      { st with variants := st.variants.map fun v =>
          if v.id == vid then { v with total_points := some p } else v }

/-- All statements applied in order, every one committed. -/
def applyOps (st : Store) (ops : List WriteOp) : Store := ops.foldl applyOp st

/-- Run the write statements in order.  Each helper commits immediately
after its statement, so the threaded store is the committed state.  When
the oracle fires on a statement index, that statement raises before taking
effect and the error propagates; everything already committed stays. -/
def runWrites (oracle : Nat → Bool) (st : Store) (ops : List WriteOp) (i : Nat) :
    Option String × Store :=
  match ops with
  | [] => (none, st)
  | op :: rest =>
      if oracle i then (some "PersistenceError", st)
      else runWrites oracle (applyOp st op) rest (i + 1)

/-- The flattened `(exercise_id, section_name)` stream of the loop in
`generate_variant` (lines 136-155): subjects in template order, each
selection in its returned order. -/
def placed (subjects : List Subject) (sels : List (List Nat)) : List (Nat × String) :=
  (subjects.zip sels).flatMap fun p => p.2.map fun e => (e, p.1.name)

/-- The `variant_exercises` rows `generate_variant` attempts to insert:
`order_index` is the single running counter over the whole stream,
starting at 0 and never reset between sections (lines 134, 151, 155). -/
def veRows (vid : Nat) (subjects : List Subject) (sels : List (List Nat)) : List VERow :=
  (placed subjects sels).enum.map fun p => ⟨vid, p.2.1, p.1, p.2.2⟩

/-- `total_points = sum(s["points_each"] * s["count"] for s in
structure.subjects)` (line 158). -/
def total_points (subjects : List Subject) : Nat :=
  (subjects.map fun s => s.points_each * s.count).sum

/-- Step 1 of `generate_variant` (lines 113-119): resolve the exam
structure, `none` meaning the ValueError branch. -/
def getStructure (exam_type : String) (profile : Option String) : Option ExamStructure :=
  if exam_type == "bacalaureat" then
    some (get_bacalaureat_structure (profile.getD "mate-info"))
  else if exam_type == "evaluare_nationala" then
    some get_evaluare_nationala_structure
  else none

/-- The per-section Selector invocations of `generate_variant`
(lines 136-144): the query of subject number i uses the i-th pair of
random table orders. -/
def generate_selections (shuffles : Nat → List Exercise × List Exercise)
    (subjects : List Subject) (exam_type : String) (lo hi : Int)
    (preferred_tags exclude_tags : Option (List String)) : List (List Nat) :=
  subjects.enum.map fun p =>
    select_exercises_for_subject (shuffles p.1).1 (shuffles p.1).2 p.2
      exam_type lo hi preferred_tags exclude_tags

/-- The ordered write statements of one `generate_variant` run: the
`variants` INSERT (step 2), one `variant_exercises` INSERT per selected
exercise (step 3), then the `total_points` UPDATE (step 4). -/
def generate_ops (vid : Nat) (name exam_type : String) (profile : Option String)
    (year : Option Int) (session : Option String) (duration_minutes : Nat)
    (subjects : List Subject) (sels : List (List Nat)) : List WriteOp :=
  WriteOp.createVariant
      ⟨vid, name, exam_type, profile, year, session, duration_minutes, "DRAFT", none⟩
    :: (veRows vid subjects sels).map WriteOp.insertVE
    ++ [WriteOp.updatePoints vid (total_points subjects)]

/-- The dict returned by `generate_variant` on success (lines 161-172). -/
structure Summary where
  variant_id : Nat
  exercise_count : Nat
  total_points : Nat
  structure_counts : List (String × Nat)
  deriving DecidableEq, Repr

/-- The per-subject expected exercise counts of the returned summary
(lines 165-171): `count * (variants_per_problem with default 1, when
has_variants, else 1)`. -/
def summary_structure (subjects : List Subject) : List (String × Nat) :=
  subjects.map fun s =>
    (s.name, s.count * (if s.has_variants then s.variants_per_problem.getD 1 else 1))

/-- `VariantGenerator.generate_variant` (lines 84-172).  `st` is the
committed store on entry, `oracle` injects persistence failures by write
index, `vid` is the id the database hands back for the new variant row,
and `shuffles` gives the random table order pair of each subject's
Selector call.  The result is the raised error if any, the committed store
after the run, and the returned summary on success. -/
def generate_variant (st : Store) (oracle : Nat → Bool) (vid : Nat)
    (shuffles : Nat → List Exercise × List Exercise)
    (name exam_type : String) (profile : Option String) (year : Option Int)
    (session : Option String) (lo hi : Int)
    (preferred_tags exclude_tags : Option (List String))
    (duration_minutes : Nat) : Option String × Store × Option Summary :=
  match getStructure exam_type profile with
  | none =>
      (some ("Exam type " ++ exam_type ++ " not supported for auto-generation"), st, none)
  | some str =>
      let sels := generate_selections shuffles str.subjects exam_type lo hi
        preferred_tags exclude_tags
      let ops := generate_ops vid name exam_type profile year session duration_minutes
        str.subjects sels
      match runWrites oracle st ops 0 with
      | (some e, st2) => (some e, st2, none)
      | (none, st2) =>
          (none, st2,
            some ⟨vid, sels.flatten.length, total_points str.subjects,
              summary_structure str.subjects⟩)

/-! ### Helper lemmas about queries and selection -/

/-- Every id a query returns is the id of a table row satisfying the WHERE
condition. -/
theorem mem_runQuery {tbl : List Exercise} {cond : Exercise → Bool} {n i : Nat}
    (h : i ∈ runQuery tbl cond n) : ∃ e, e ∈ tbl ∧ e.id = i ∧ cond e = true := by
  simp only [runQuery, List.mem_map] at h
  obtain ⟨e, he, rfl⟩ := h
  have h2 : e ∈ tbl.filter cond := (List.take_sublist _ _).subset he
  exact ⟨e, (List.mem_filter.mp h2).1, rfl, (List.mem_filter.mp h2).2⟩

/-- A LIMIT n query returns at most n rows. -/
theorem runQuery_length_le (tbl : List Exercise) (cond : Exercise → Bool) (n : Nat) :
    (runQuery tbl cond n).length ≤ n := by
  simp only [runQuery, List.length_map, List.length_take n]
  exact Nat.min_le_left _ _

/-- A query over a table with pairwise distinct ids returns pairwise
distinct ids. -/
theorem runQuery_nodup {tbl : List Exercise} (cond : Exercise → Bool) (n : Nat)
    (h : (tbl.map Exercise.id).Nodup) : (runQuery tbl cond n).Nodup := by
  have hs : List.Sublist (((tbl.filter cond).take n).map Exercise.id)
      (tbl.map Exercise.id) :=
    ((List.take_sublist _ _).trans (List.filter_sublist tbl)).map Exercise.id
  simp only [runQuery]
  exact h.sublist hs

/-- The selection is the strict query result or the relaxed query result,
depending on whether the strict query under-filled. -/
theorem select_eq_ite (tbl tblR : List Exercise) (s : Subject) (et : String)
    (lo hi : Int) (pt xt : Option (List String)) :
    select_exercises_for_subject tbl tblR s et lo hi pt xt
      = if (runQuery tbl (strictCond s.item_type et lo hi) (count_needed s)).length
            < count_needed s
        then runQuery tblR (relaxedCond lo hi) (count_needed s)
        else runQuery tbl (strictCond s.item_type et lo hi) (count_needed s) := rfl

/-- The Selector never returns more ids than the requested slot count. -/
theorem select_length_le (tbl tblR : List Exercise) (s : Subject) (et : String)
    (lo hi : Int) (pt xt : Option (List String)) :
    (select_exercises_for_subject tbl tblR s et lo hi pt xt).length
      ≤ count_needed s := by
  rw [select_eq_ite]
  split
  · exact runQuery_length_le _ _ _
  · exact runQuery_length_le _ _ _

/-- The strict condition entails the difficulty-range condition. -/
theorem strictCond_diff {it et : String} {lo hi : Int} {e : Exercise}
    (h : strictCond it et lo hi e = true) : diffCond lo hi e = true := by
  simp only [strictCond, Bool.and_eq_true] at h
  exact h.1.1.1

/-- The relaxed condition entails the difficulty-range condition. -/
theorem relaxedCond_diff {lo hi : Int} {e : Exercise}
    (h : relaxedCond lo hi e = true) : diffCond lo hi e = true := by
  simp only [relaxedCond, Bool.and_eq_true] at h
  exact h.1

/-! ### Claim theorems about the Selector -/

/-- C8: the strict eligibility predicate holds for an exercise exactly when
its difficulty is present and lies within [lo, hi] inclusive, its status is
not ARCHIVED (a missing status is eligible), its item_type equals the
section item_type or the generic `exercitiu` or is unset, and its exam_type
equals the requested (non-empty) exam type or is unset. -/
theorem C8_strict_predicate_characterisation (it et : String) (lo hi : Int)
    (e : Exercise) (h : et ≠ "") :
    strictCond it et lo hi e = true ↔
      ((∃ d, e.difficulty = some d ∧ lo ≤ d ∧ d ≤ hi)
        ∧ e.status ≠ some "ARCHIVED"
        ∧ (e.item_type = some it ∨ e.item_type = some "exercitiu" ∨ e.item_type = none)
        ∧ (e.exam_type = some et ∨ e.exam_type = none)) := by
  have he : (et == "") = false := beq_eq_false_iff_ne.mpr h
  obtain ⟨i, d, st, t, x, tg⟩ := e
  cases d <;> cases st <;> cases t <;> cases x <;>
    simp [strictCond, diffCond, statusCond, itemTypeCond, examTypeCond, he,
      Bool.and_eq_true, decide_eq_true_eq, and_assoc]

/-- Witness for C8 at a concrete exercise and a concrete request. -/
theorem C8_witness :
    strictCond "subiect_1" "evaluare_nationala" 3 7
        ⟨1, some 5, none, none, none, []⟩ = true ↔
      ((∃ d, (some (5 : Int)) = some d ∧ (3 : Int) ≤ d ∧ d ≤ 7)
        ∧ (none : Option String) ≠ some "ARCHIVED"
        ∧ ((none : Option String) = some "subiect_1"
            ∨ (none : Option String) = some "exercitiu"
            ∨ (none : Option String) = none)
        ∧ ((none : Option String) = some "evaluare_nationala"
            ∨ (none : Option String) = none)) :=
  C8_strict_predicate_characterisation "subiect_1" "evaluare_nationala" 3 7
    ⟨1, some 5, none, none, none, []⟩ (by decide)

/-- C3: the relaxation fallback fires exactly when the strict query returns
fewer ids than the required slot count; the relaxed re-query filters only
on the difficulty range and the not-archived status and its result replaces
the strict result; the returned ids are pairwise distinct; and fewer ids
than requested is a legitimate value of the function, not an error (the
result length is merely bounded by the slot count). -/
theorem C3_relaxation_fallback (tbl tblR : List Exercise) (s : Subject) (et : String)
    (lo hi : Int) (pt xt : Option (List String))
    (h1 : (tbl.map Exercise.id).Nodup) (h2 : (tblR.map Exercise.id).Nodup) :
    (((runQuery tbl (strictCond s.item_type et lo hi) (count_needed s)).length
          < count_needed s →
        select_exercises_for_subject tbl tblR s et lo hi pt xt
            = runQuery tblR (relaxedCond lo hi) (count_needed s)
          ∧ ∀ i ∈ select_exercises_for_subject tbl tblR s et lo hi pt xt,
              ∃ e, e ∈ tblR ∧ e.id = i ∧ diffCond lo hi e = true
                ∧ statusCond e = true)
      ∧ (count_needed s
            ≤ (runQuery tbl (strictCond s.item_type et lo hi) (count_needed s)).length →
          select_exercises_for_subject tbl tblR s et lo hi pt xt
            = runQuery tbl (strictCond s.item_type et lo hi) (count_needed s))
      ∧ (select_exercises_for_subject tbl tblR s et lo hi pt xt).Nodup
      ∧ (select_exercises_for_subject tbl tblR s et lo hi pt xt).length
          ≤ count_needed s) := by
  refine ⟨?_, ?_, ?_, select_length_le tbl tblR s et lo hi pt xt⟩
  · intro hlt
    have hrw : select_exercises_for_subject tbl tblR s et lo hi pt xt
        = runQuery tblR (relaxedCond lo hi) (count_needed s) := by
      rw [select_eq_ite, if_pos hlt]
    refine ⟨hrw, ?_⟩
    intro i hi2
    rw [hrw] at hi2
    obtain ⟨e, he, hid, hc⟩ := mem_runQuery hi2
    simp only [relaxedCond, Bool.and_eq_true] at hc
    exact ⟨e, he, hid, hc.1, hc.2⟩
  · intro hge
    rw [select_eq_ite, if_neg (Nat.not_lt.mpr hge)]
  · rw [select_eq_ite]
    split
    · exact runQuery_nodup _ _ h2
    · exact runQuery_nodup _ _ h1

/-- Witness for C3: a pool whose only exercise has a foreign item_type, so
the strict query under-fills and the relaxed query returns it instead. -/
theorem C3_witness :
    (((runQuery [⟨1, some 5, none, some "altceva", none, []⟩]
            (strictCond "subiect_1" "evaluare_nationala" 3 7)
            (count_needed ⟨"Subiectul I", "subiect_1", 6, false, none, 5, []⟩)).length
          < count_needed ⟨"Subiectul I", "subiect_1", 6, false, none, 5, []⟩ →
        select_exercises_for_subject [⟨1, some 5, none, some "altceva", none, []⟩]
              [⟨1, some 5, none, some "altceva", none, []⟩]
              ⟨"Subiectul I", "subiect_1", 6, false, none, 5, []⟩
              "evaluare_nationala" 3 7 none none
            = runQuery [⟨1, some 5, none, some "altceva", none, []⟩]
                (relaxedCond 3 7)
                (count_needed ⟨"Subiectul I", "subiect_1", 6, false, none, 5, []⟩)
          ∧ ∀ i ∈ select_exercises_for_subject
              [⟨1, some 5, none, some "altceva", none, []⟩]
              [⟨1, some 5, none, some "altceva", none, []⟩]
              ⟨"Subiectul I", "subiect_1", 6, false, none, 5, []⟩
              "evaluare_nationala" 3 7 none none,
              ∃ e, e ∈ [⟨1, some 5, none, some "altceva", none, []⟩]
                ∧ Exercise.id e = i ∧ diffCond 3 7 e = true ∧ statusCond e = true)
      ∧ (count_needed ⟨"Subiectul I", "subiect_1", 6, false, none, 5, []⟩
            ≤ (runQuery [⟨1, some 5, none, some "altceva", none, []⟩]
                (strictCond "subiect_1" "evaluare_nationala" 3 7)
                (count_needed ⟨"Subiectul I", "subiect_1", 6, false, none, 5, []⟩)).length →
          select_exercises_for_subject [⟨1, some 5, none, some "altceva", none, []⟩]
              [⟨1, some 5, none, some "altceva", none, []⟩]
              ⟨"Subiectul I", "subiect_1", 6, false, none, 5, []⟩
              "evaluare_nationala" 3 7 none none
            = runQuery [⟨1, some 5, none, some "altceva", none, []⟩]
                (strictCond "subiect_1" "evaluare_nationala" 3 7)
                (count_needed ⟨"Subiectul I", "subiect_1", 6, false, none, 5, []⟩))
      ∧ (select_exercises_for_subject [⟨1, some 5, none, some "altceva", none, []⟩]
            [⟨1, some 5, none, some "altceva", none, []⟩]
            ⟨"Subiectul I", "subiect_1", 6, false, none, 5, []⟩
            "evaluare_nationala" 3 7 none none).Nodup
      ∧ (select_exercises_for_subject [⟨1, some 5, none, some "altceva", none, []⟩]
            [⟨1, some 5, none, some "altceva", none, []⟩]
            ⟨"Subiectul I", "subiect_1", 6, false, none, 5, []⟩
            "evaluare_nationala" 3 7 none none).length
          ≤ count_needed ⟨"Subiectul I", "subiect_1", 6, false, none, 5, []⟩) :=
  C3_relaxation_fallback [⟨1, some 5, none, some "altceva", none, []⟩]
    [⟨1, some 5, none, some "altceva", none, []⟩]
    ⟨"Subiectul I", "subiect_1", 6, false, none, 5, []⟩
    "evaluare_nationala" 3 7 none none (by decide) (by decide)

/-- C10: an exercise id all of whose table records carry a NULL difficulty
is never returned by the Selector — neither by the strict query nor by the
relaxation fallback — for any difficulty range. -/
theorem C10_null_difficulty_never_selected (tbl tblR : List Exercise) (s : Subject)
    (et : String) (lo hi : Int) (pt xt : Option (List String)) (i : Nat)
    (h1 : ∀ e ∈ tbl, e.id = i → e.difficulty = none)
    (h2 : ∀ e ∈ tblR, e.id = i → e.difficulty = none) :
    i ∉ select_exercises_for_subject tbl tblR s et lo hi pt xt := by
  have key : ∀ (t : List Exercise) (c : Exercise → Bool) (n : Nat),
      (∀ e, c e = true → diffCond lo hi e = true) →
      (∀ e ∈ t, e.id = i → e.difficulty = none) → i ∉ runQuery t c n := by
    intro t c n hc ht hmem
    obtain ⟨e, het, hid, hce⟩ := mem_runQuery hmem
    have hd := hc e hce
    have hnone := ht e het hid
    simp [diffCond, hnone] at hd
  intro hmem
  rw [select_eq_ite] at hmem
  by_cases hlt : (runQuery tbl (strictCond s.item_type et lo hi)
      (count_needed s)).length < count_needed s
  · rw [if_pos hlt] at hmem
    exact key tblR _ _ (fun e hc => relaxedCond_diff hc) h2 hmem
  · rw [if_neg hlt] at hmem
    exact key tbl _ _ (fun e hc => strictCond_diff hc) h1 hmem

/-- Witness for C10: a pool consisting of one exercise with NULL difficulty
yields no selection containing its id. -/
theorem C10_witness :
    1 ∉ select_exercises_for_subject [⟨1, none, none, none, none, []⟩]
        [⟨1, none, none, none, none, []⟩]
        ⟨"Subiectul I", "subiect_1", 6, false, none, 5, []⟩
        "evaluare_nationala" 3 7 none none :=
  C10_null_difficulty_never_selected [⟨1, none, none, none, none, []⟩]
    [⟨1, none, none, none, none, []⟩]
    ⟨"Subiectul I", "subiect_1", 6, false, none, 5, []⟩
    "evaluare_nationala" 3 7 none none 1 (by decide) (by decide)

/-- C5: for a subject with sub-variants, the slot count requested from the
query is count times variants_per_problem (default 3), the selection never
exceeds it, and the subject contributes points_each times count to the
total points of any structure containing it — with no dependence on how
many of the slots were actually filled. -/
theorem C5_sub_variant_slots_and_points (s : Subject) (tbl tblR : List Exercise)
    (et : String) (lo hi : Int) (pt xt : Option (List String))
    (pre post : List Subject) (h : s.has_variants = true) :
    count_needed s = s.count * s.variants_per_problem.getD 3
    ∧ (select_exercises_for_subject tbl tblR s et lo hi pt xt).length
        ≤ s.count * s.variants_per_problem.getD 3
    ∧ total_points (pre ++ s :: post)
        = total_points (pre ++ post) + s.points_each * s.count := by
  have hc : count_needed s = s.count * s.variants_per_problem.getD 3 := by
    simp [count_needed, h]
  refine ⟨hc, hc ▸ select_length_le tbl tblR s et lo hi pt xt, ?_⟩
  simp only [total_points, List.map_append, List.sum_append, List.map_cons,
    List.sum_cons]
  ring

/-- Witness for C5 at the bacalaureat Subiectul II section: 2 problems with
3 sub-variants each request 6 slots, and the section contributes 30 points;
the concrete pool holds a single exercise, so only one slot fills. -/
theorem C5_witness :
    count_needed ⟨"Subiectul II", "subiect_2", 2, true, some 3, 15, ["algebra", "analiza"]⟩
        = 2 * (some 3).getD 3
    ∧ (select_exercises_for_subject [⟨1, some 5, none, none, none, []⟩]
          [⟨1, some 5, none, none, none, []⟩]
          ⟨"Subiectul II", "subiect_2", 2, true, some 3, 15, ["algebra", "analiza"]⟩
          "bacalaureat" 3 7 none none).length
        ≤ 2 * (some 3).getD 3
    ∧ total_points ([] ++ ⟨"Subiectul II", "subiect_2", 2, true, some 3, 15,
          ["algebra", "analiza"]⟩ :: [])
        = total_points ([] ++ []) + 15 * 2 :=
  C5_sub_variant_slots_and_points
    ⟨"Subiectul II", "subiect_2", 2, true, some 3, 15, ["algebra", "analiza"]⟩
    [⟨1, some 5, none, none, none, []⟩] [⟨1, some 5, none, none, none, []⟩]
    "bacalaureat" 3 7 none none [] [] (by decide)

/-- C6 (code bug): the tag parameters of the Selector are dead code — the
selection result does not depend on preferred_tags or exclude_tags at all,
and a concrete exercise carrying an excluded tag is returned anyway. -/
theorem C6_exclude_tags_ignored :
    (∀ (tbl tblR : List Exercise) (s : Subject) (et : String) (lo hi : Int)
        (pt xt pt2 xt2 : Option (List String)),
      select_exercises_for_subject tbl tblR s et lo hi pt xt
        = select_exercises_for_subject tbl tblR s et lo hi pt2 xt2)
    ∧ "geometrie" ∈ (Exercise.mk 1 (some 5) none none none ["geometrie"]).tags
    ∧ select_exercises_for_subject
        [⟨1, some 5, none, none, none, ["geometrie"]⟩]
        [⟨1, some 5, none, none, none, ["geometrie"]⟩]
        ⟨"Subiectul I", "subiect_1", 6, false, none, 5, []⟩
        "evaluare_nationala" 3 7 none (some ["geometrie"]) = [1] :=
  ⟨fun _ _ _ _ _ _ _ _ _ _ => rfl, by decide, by decide⟩

/-- C7: an exam type with no registered structure fails with the
unsupported-exam-type error before any write occurs: the store is returned
exactly as it was and no summary is produced. -/
theorem C7_unsupported_exam_type_is_clean_noop (st : Store) (oracle : Nat → Bool)
    (vid : Nat) (shuffles : Nat → List Exercise × List Exercise)
    (name exam_type : String) (profile : Option String) (year : Option Int)
    (session : Option String) (lo hi : Int) (pt xt : Option (List String)) (dm : Nat)
    (h1 : exam_type ≠ "bacalaureat") (h2 : exam_type ≠ "evaluare_nationala") :
    generate_variant st oracle vid shuffles name exam_type profile year session
        lo hi pt xt dm
      = (some ("Exam type " ++ exam_type ++ " not supported for auto-generation"),
         st, none) := by
  have e1 : (exam_type == "bacalaureat") = false := beq_eq_false_iff_ne.mpr h1
  have e2 : (exam_type == "evaluare_nationala") = false := beq_eq_false_iff_ne.mpr h2
  simp [generate_variant, getStructure, e1, e2]

/-- Witness for C7: requesting exam type unknown_type leaves the empty
store unchanged and produces the error. -/
theorem C7_witness :
    generate_variant ⟨[], []⟩ (fun _ => false) 1 (fun _ => ([], [])) "V"
        "unknown_type" none none none 3 7 none none 180
      = (some "Exam type unknown_type not supported for auto-generation",
         ⟨[], []⟩, none) :=
  C7_unsupported_exam_type_is_clean_noop ⟨[], []⟩ (fun _ => false) 1
    (fun _ => ([], [])) "V" "unknown_type" none none none 3 7 none none 180
    (by decide) (by decide)

/-! ### Helper lemmas about the write sequence -/

/-- Folding one more statement. -/
theorem applyOps_cons (st : Store) (op : WriteOp) (ops : List WriteOp) :
    applyOps st (op :: ops) = applyOps (applyOp st op) ops := rfl

/-- Splitting a write sequence. -/
theorem applyOps_append (st : Store) (a b : List WriteOp) :
    applyOps st (a ++ b) = applyOps (applyOps st a) b := by
  simp [applyOps, List.foldl_append]

/-- When no statement fails, the run reports no error and ends in the store
with every statement applied. -/
theorem runWrites_noFail (ops : List WriteOp) : ∀ (st : Store) (i : Nat),
    runWrites (fun _ => false) st ops i = (none, applyOps st ops) := by
  induction ops with
  | nil => intro st i; rfl
  | cons op rest ih =>
      intro st i
      simp only [runWrites, Bool.false_eq_true, if_false, ih, applyOps_cons]

/-- A run reporting no error ends in the store with every statement
applied. -/
theorem runWrites_none (ops : List WriteOp) : ∀ (oracle : Nat → Bool) (st : Store)
    (i : Nat) (st2 : Store),
    runWrites oracle st ops i = (none, st2) → st2 = applyOps st ops := by
  induction ops with
  | nil =>
      intro oracle st i st2 h
      simp only [runWrites] at h
      injection h with h1 h2
      subst h2
      rfl
  | cons op rest ih =>
      intro oracle st i st2 h
      simp only [runWrites] at h
      by_cases ho : oracle i
      · rw [if_pos ho] at h
        injection h with h1 h2
        exact Option.noConfusion h1
      · rw [if_neg ho] at h
        rw [applyOps_cons]
        exact ih oracle (applyOp st op) (i + 1) st2 h

/-- When the first firing statement index is k (within the sequence), the
run raises there and the committed store holds exactly the first k
statements. -/
theorem runWrites_first_fail (oracle : Nat → Bool) (ops : List WriteOp) :
    ∀ (st : Store) (i k : Nat), k < ops.length → oracle (i + k) = true →
      (∀ j, j < k → oracle (i + j) = false) →
      runWrites oracle st ops i
        = (some "PersistenceError", applyOps st (ops.take k)) := by
  induction ops with
  | nil => intro st i k hk _ _; exact absurd hk (by simp)
  | cons op rest ih =>
      intro st i k hk hfire hbefore
      cases k with
      | zero =>
          rw [Nat.add_zero] at hfire
          simp [runWrites, hfire, applyOps]
      | succ k2 =>
          have h0 : oracle i = false := by
            have := hbefore 0 (Nat.succ_pos k2)
            simpa using this
          have hfire2 : oracle ((i + 1) + k2) = true := by
            rw [show (i + 1) + k2 = i + (k2 + 1) by omega]; exact hfire
          have hbefore2 : ∀ j, j < k2 → oracle ((i + 1) + j) = false := by
            intro j hj
            rw [show (i + 1) + j = i + (j + 1) by omega]
            exact hbefore (j + 1) (by omega)
          have hk2 : k2 < rest.length := by
            simpa using Nat.lt_of_succ_lt_succ hk
          simp only [runWrites, h0, Bool.false_eq_true, if_false]
          rw [ih (applyOp st op) (i + 1) k2 hk2 hfire2 hbefore2]
          rw [List.take_succ_cons, applyOps_cons]

/-- A membership insert touches only the `variant_exercises` table. -/
theorem applyOp_insertVE_variants (st : Store) (r : VERow) :
    (applyOp st (WriteOp.insertVE r)).variants = st.variants := by
  simp only [applyOp]
  split <;> rfl

/-- A whole block of membership inserts leaves `variants` unchanged. -/
theorem applyOps_insertVE_variants (rows : List VERow) : ∀ (st : Store),
    (applyOps st (rows.map WriteOp.insertVE)).variants = st.variants := by
  induction rows with
  | nil => intro st; rfl
  | cons r rest ih =>
      intro st
      rw [List.map_cons, applyOps_cons, ih, applyOp_insertVE_variants]

/-- The points update touches only the `variants` table. -/
theorem applyOp_update_ve (st : Store) (vid p : Nat) :
    (applyOp st (WriteOp.updatePoints vid p)).variant_exercises
      = st.variant_exercises := rfl

/-- Inserting rows none of which conflicts with the store or with each
other appends them all. -/
theorem applyOps_insertVE_fresh (rows : List VERow) : ∀ (st : Store),
    (∀ x ∈ st.variant_exercises, ∀ r ∈ rows,
        ¬(x.variant_id = r.variant_id ∧ x.exercise_id = r.exercise_id)) →
    rows.Pairwise (fun a b =>
        ¬(a.variant_id = b.variant_id ∧ a.exercise_id = b.exercise_id)) →
    (applyOps st (rows.map WriteOp.insertVE)).variant_exercises
      = st.variant_exercises ++ rows := by
  induction rows with
  | nil => intro st _ _; simp [applyOps]
  | cons r rest ih =>
      intro st hfresh hpw
      have hpair : hasPair st r = false := by
        simp only [hasPair, List.any_eq_false]
        intro x hx
        have := hfresh x hx r (List.mem_cons_self r rest)
        simp only [Bool.and_eq_true, beq_iff_eq, not_and]
        intro h1
        intro h2
        exact this ⟨h1, h2⟩
      have hstep : applyOp st (WriteOp.insertVE r)
          = { st with variant_exercises := st.variant_exercises ++ [r] } := by
        simp [applyOp, hpair]
      rw [List.map_cons, applyOps_cons, hstep]
      have hpw2 := (List.pairwise_cons.mp hpw)
      have hfresh2 : ∀ x ∈ st.variant_exercises ++ [r], ∀ r2 ∈ rest,
          ¬(x.variant_id = r2.variant_id ∧ x.exercise_id = r2.exercise_id) := by
        intro x hx r2 hr2
        rcases List.mem_append.mp hx with hx1 | hx2
        · exact hfresh x hx1 r2 (List.mem_cons_of_mem r hr2)
        · have : x = r := by simpa using hx2
          subst this
          exact hpw2.1 r2 hr2
      have := ih { st with variant_exercises := st.variant_exercises ++ [r] }
        hfresh2 hpw2.2
      rw [this]
      simp

/-- Updating the points of a fresh id on a store whose other rows have
different ids rewrites only the appended row. -/
theorem update_fresh_append (vs : List VariantRow) (v : VariantRow) (vid p : Nat)
    (hv : v.id = vid) (h : ∀ w ∈ vs, w.id ≠ vid) :
    (vs ++ [v]).map (fun w => if w.id == vid
        then { w with total_points := some p } else w)
      = vs ++ [{ v with total_points := some p }] := by
  have h2 : vs.map (fun w => if w.id == vid
      then { w with total_points := some p } else w) = vs.map id :=
    List.map_congr_left fun w hw => by
      have : (w.id == vid) = false := beq_eq_false_iff_ne.mpr (h w hw)
      simp [this]
  rw [List.map_append, h2, List.map_id]
  simp [hv]

/-- Every row `generate_variant` tries to insert belongs to the new
variant. -/
theorem veRows_variant_id (vid : Nat) (subjects : List Subject)
    (sels : List (List Nat)) :
    ∀ r ∈ veRows vid subjects sels, r.variant_id = vid := by
  intro r hr
  simp only [veRows, List.mem_map] at hr
  obtain ⟨p, _, rfl⟩ := hr
  rfl

/-- The exercise ids of the attempted rows, in order, are exactly the
concatenation of the per-section selections (when every section got its
selection). -/
theorem veRows_map_exercise_id (vid : Nat) (subjects : List Subject)
    (sels : List (List Nat)) (h : sels.length ≤ subjects.length) :
    (veRows vid subjects sels).map VERow.exercise_id = sels.flatten := by
  have h1 : (veRows vid subjects sels).map VERow.exercise_id
      = (placed subjects sels).map Prod.fst := by
    simp only [veRows, List.map_map]
    have : (VERow.exercise_id ∘ fun p : Nat × (Nat × String) => ⟨vid, p.2.1, p.1, p.2.2⟩)
        = (Prod.fst ∘ Prod.snd) := rfl
    rw [this, ← List.map_map, List.enum_map_snd]
  rw [h1]
  simp only [placed, List.map_flatMap]
  rw [List.flatMap_def]
  have hmap : (subjects.zip sels).map
      (fun p => (p.2.map fun e => ((e, p.1.name) : Nat × String)).map Prod.fst)
      = (subjects.zip sels).map Prod.snd :=
    List.map_congr_left fun p hp => by
      simp only [List.map_map]
      rw [show (Prod.fst ∘ fun e : Nat => ((e, p.1.name) : Nat × String)) = id from rfl,
        List.map_id]
  rw [hmap, List.map_snd_zip subjects sels h]

/-- The order indices assigned along one run are exactly 0..k-1 over the
whole stream of selected exercises. -/
theorem veRows_map_order_index (vid : Nat) (subjects : List Subject)
    (sels : List (List Nat)) (h : sels.length ≤ subjects.length) :
    (veRows vid subjects sels).map VERow.order_index
      = List.range sels.flatten.length := by
  have h1 : (veRows vid subjects sels).map VERow.order_index
      = (placed subjects sels).enum.map Prod.fst := by
    simp only [veRows, List.map_map]
    rfl
  rw [h1, List.enum_map_fst]
  congr 1
  calc (placed subjects sels).length
      = ((veRows vid subjects sels).map VERow.exercise_id).length := by
        simp [veRows, List.length_map, List.enum_length]
    _ = sels.flatten.length := by rw [veRows_map_exercise_id vid subjects sels h]

/-- One Selector call is recorded per subject. -/
theorem generate_selections_length (shuffles : Nat → List Exercise × List Exercise)
    (subjects : List Subject) (et : String) (lo hi : Int)
    (pt xt : Option (List String)) :
    (generate_selections shuffles subjects et lo hi pt xt).length
      = subjects.length := by
  simp [generate_selections, List.enum_length]

/-- `generate_variant` on a supported exam type is the write run over its
planned statements, wrapped into the returned triple. -/
theorem generate_variant_run (st : Store) (oracle : Nat → Bool) (vid : Nat)
    (shuffles : Nat → List Exercise × List Exercise) (name exam_type : String)
    (profile : Option String) (year : Option Int) (session : Option String)
    (lo hi : Int) (pt xt : Option (List String)) (dm : Nat) (str : ExamStructure)
    (hstr : getStructure exam_type profile = some str) :
    generate_variant st oracle vid shuffles name exam_type profile year session
        lo hi pt xt dm
      = (match runWrites oracle st (generate_ops vid name exam_type profile year
            session dm str.subjects
            (generate_selections shuffles str.subjects exam_type lo hi pt xt)) 0 with
         | (some e, st2) => (some e, st2, none)
         | (none, st2) =>
             (none, st2,
               some ⟨vid,
                 (generate_selections shuffles str.subjects exam_type lo hi
                   pt xt).flatten.length,
                 total_points str.subjects, summary_structure str.subjects⟩)) := by
  simp only [generate_variant, hstr]

/-- A failing write run makes `generate_variant` return the error, the
committed store, and no summary. -/
theorem generate_variant_fail (st : Store) (oracle : Nat → Bool) (vid : Nat)
    (shuffles : Nat → List Exercise × List Exercise) (name exam_type : String)
    (profile : Option String) (year : Option Int) (session : Option String)
    (lo hi : Int) (pt xt : Option (List String)) (dm : Nat) (str : ExamStructure)
    (hstr : getStructure exam_type profile = some str) (err : String) (st2 : Store)
    (hrun : runWrites oracle st (generate_ops vid name exam_type profile year
        session dm str.subjects
        (generate_selections shuffles str.subjects exam_type lo hi pt xt)) 0
      = (some err, st2)) :
    generate_variant st oracle vid shuffles name exam_type profile year session
        lo hi pt xt dm = (some err, st2, none) := by
  rw [generate_variant_run st oracle vid shuffles name exam_type profile year
    session lo hi pt xt dm str hstr, hrun]

/-- A clean write run makes `generate_variant` return the final store and
the summary. -/
theorem generate_variant_success (st : Store) (oracle : Nat → Bool) (vid : Nat)
    (shuffles : Nat → List Exercise × List Exercise) (name exam_type : String)
    (profile : Option String) (year : Option Int) (session : Option String)
    (lo hi : Int) (pt xt : Option (List String)) (dm : Nat) (str : ExamStructure)
    (hstr : getStructure exam_type profile = some str) (st2 : Store)
    (hrun : runWrites oracle st (generate_ops vid name exam_type profile year
        session dm str.subjects
        (generate_selections shuffles str.subjects exam_type lo hi pt xt)) 0
      = (none, st2)) :
    generate_variant st oracle vid shuffles name exam_type profile year session
        lo hi pt xt dm
      = (none, st2,
         some ⟨vid,
           (generate_selections shuffles str.subjects exam_type lo hi
             pt xt).flatten.length,
           total_points str.subjects, summary_structure str.subjects⟩) := by
  rw [generate_variant_run st oracle vid shuffles name exam_type profile year
    session lo hi pt xt dm str hstr, hrun]

/-- Effect of a whole clean run on the `variants` table: the new row is
appended and then receives its total points; pre-existing rows (all with
other ids) are untouched. -/
theorem applyOps_generate_variants (st : Store) (vid : Nat) (name et : String)
    (profile : Option String) (year : Option Int) (session : Option String)
    (dm : Nat) (subjects : List Subject) (sels : List (List Nat))
    (hfreshV : ∀ v ∈ st.variants, v.id ≠ vid) :
    (applyOps st (generate_ops vid name et profile year session dm subjects
        sels)).variants
      = st.variants ++ [⟨vid, name, et, profile, year, session, dm, "DRAFT",
          some (total_points subjects)⟩] := by
  rw [show generate_ops vid name et profile year session dm subjects sels
      = WriteOp.createVariant ⟨vid, name, et, profile, year, session, dm, "DRAFT", none⟩
        :: ((veRows vid subjects sels).map WriteOp.insertVE
            ++ [WriteOp.updatePoints vid (total_points subjects)]) from rfl]
  rw [applyOps_cons, applyOps_append]
  have h1 : (applyOps (applyOp st (WriteOp.createVariant
      ⟨vid, name, et, profile, year, session, dm, "DRAFT", none⟩))
      ((veRows vid subjects sels).map WriteOp.insertVE)).variants
      = st.variants ++ [⟨vid, name, et, profile, year, session, dm, "DRAFT", none⟩] := by
    rw [applyOps_insertVE_variants]
    rfl
  show ((applyOps _ _).variants.map fun v => if v.id == vid
      then { v with total_points := some (total_points subjects) } else v) = _
  rw [h1]
  exact update_fresh_append st.variants
    ⟨vid, name, et, profile, year, session, dm, "DRAFT", none⟩ vid
    (total_points subjects) rfl hfreshV

/-- Effect of a whole clean run on the `variant_exercises` table, when the
variant id is fresh and the selected exercise ids are pairwise distinct:
every attempted row is appended. -/
theorem applyOps_generate_ve (st : Store) (vid : Nat) (name et : String)
    (profile : Option String) (year : Option Int) (session : Option String)
    (dm : Nat) (subjects : List Subject) (sels : List (List Nat))
    (hfreshE : ∀ x ∈ st.variant_exercises, x.variant_id ≠ vid)
    (hnodup : sels.flatten.Nodup) (hlen : sels.length ≤ subjects.length) :
    (applyOps st (generate_ops vid name et profile year session dm subjects
        sels)).variant_exercises
      = st.variant_exercises ++ veRows vid subjects sels := by
  rw [show generate_ops vid name et profile year session dm subjects sels
      = WriteOp.createVariant ⟨vid, name, et, profile, year, session, dm, "DRAFT", none⟩
        :: ((veRows vid subjects sels).map WriteOp.insertVE
            ++ [WriteOp.updatePoints vid (total_points subjects)]) from rfl]
  rw [applyOps_cons, applyOps_append]
  have hids : ((veRows vid subjects sels).map VERow.exercise_id).Nodup := by
    rw [veRows_map_exercise_id vid subjects sels hlen]
    exact hnodup
  have hpw : (veRows vid subjects sels).Pairwise (fun a b =>
      ¬(a.variant_id = b.variant_id ∧ a.exercise_id = b.exercise_id)) :=
    (List.pairwise_map.mp hids).imp fun h hc => h hc.2
  have hfr : ∀ x ∈ st.variant_exercises, ∀ r ∈ veRows vid subjects sels,
      ¬(x.variant_id = r.variant_id ∧ x.exercise_id = r.exercise_id) := by
    intro x hx r hr hc
    exact hfreshE x hx (hc.1.trans (veRows_variant_id vid subjects sels r hr))
  show (applyOp (applyOps _ _) (WriteOp.updatePoints vid
      (total_points subjects))).variant_exercises = _
  rw [applyOp_update_ve]
  exact applyOps_insertVE_fresh (veRows vid subjects sels)
    { st with variants := st.variants ++ [⟨vid, name, et, profile, year, session,
        dm, "DRAFT", none⟩] } hfr hpw

/-! ### Claim theorems about persistence -/

/-- C1 counterexample: two eligible exercises, and the statement with index
2 (the second membership insert) raises.  The run aborts, but the variant
row and the first membership — both already committed — remain in the
store: a partial variant with a proper subset of its intended associations
persists, so the claimed rollback does not happen. -/
theorem C1_counterexample :
    generate_variant ⟨[], []⟩ (fun i => i == 2) 7
        (fun _ => ([⟨1, some 5, none, none, none, []⟩, ⟨2, some 5, none, none, none, []⟩],
                   [⟨1, some 5, none, none, none, []⟩, ⟨2, some 5, none, none, none, []⟩]))
        "V" "evaluare_nationala" none none none 3 7 none none 180
      = (some "PersistenceError",
         ⟨[⟨7, "V", "evaluare_nationala", none, none, none, 180, "DRAFT", none⟩],
          [⟨7, 1, 0, "Subiectul I"⟩]⟩,
         none) := by decide

/-- C1 amended: a persistence error aborts the operation and propagates,
but every statement is committed individually, so all writes made before
the failing statement persist — the committed store after a failure at the
first firing index k holds exactly the first k statements (in particular a
partial variant with a proper subset of its associations can remain). -/
theorem C1_amended_prefix_commits_persist (st : Store) (oracle : Nat → Bool)
    (vid : Nat) (shuffles : Nat → List Exercise × List Exercise)
    (name exam_type : String) (profile : Option String) (year : Option Int)
    (session : Option String) (lo hi : Int) (pt xt : Option (List String)) (dm : Nat)
    (str : ExamStructure) (ops : List WriteOp) (k : Nat)
    (hstr : getStructure exam_type profile = some str)
    (hops : ops = generate_ops vid name exam_type profile year session dm str.subjects
        (generate_selections shuffles str.subjects exam_type lo hi pt xt))
    (hk : k < ops.length) (hfire : oracle k = true)
    (hbefore : ∀ j, j < k → oracle j = false) :
    generate_variant st oracle vid shuffles name exam_type profile year session
        lo hi pt xt dm
      = (some "PersistenceError", applyOps st (ops.take k), none) := by
  subst hops
  have hrun := runWrites_first_fail oracle _ st 0 k hk (by simpa using hfire)
    fun j hj => by simpa using hbefore j hj
  exact generate_variant_fail st oracle vid shuffles name exam_type profile year
    session lo hi pt xt dm str hstr _ _ hrun

/-- Witness for the amended C1 at the concrete failing run: the committed
store is exactly the first two statements (variant row plus first
membership). -/
theorem C1_amended_witness :
    generate_variant ⟨[], []⟩ (fun i => i == 2) 7
        (fun _ => ([⟨1, some 5, none, none, none, []⟩, ⟨2, some 5, none, none, none, []⟩],
                   [⟨1, some 5, none, none, none, []⟩, ⟨2, some 5, none, none, none, []⟩]))
        "V" "evaluare_nationala" none none none 3 7 none none 180
      = (some "PersistenceError",
         applyOps ⟨[], []⟩
           ((generate_ops 7 "V" "evaluare_nationala" none none none 180
               get_evaluare_nationala_structure.subjects
               (generate_selections
                 (fun _ => ([⟨1, some 5, none, none, none, []⟩,
                             ⟨2, some 5, none, none, none, []⟩],
                            [⟨1, some 5, none, none, none, []⟩,
                             ⟨2, some 5, none, none, none, []⟩]))
                 get_evaluare_nationala_structure.subjects
                 "evaluare_nationala" 3 7 none none)).take 2),
         none) :=
  C1_amended_prefix_commits_persist ⟨[], []⟩ (fun i => i == 2) 7
    (fun _ => ([⟨1, some 5, none, none, none, []⟩, ⟨2, some 5, none, none, none, []⟩],
               [⟨1, some 5, none, none, none, []⟩, ⟨2, some 5, none, none, none, []⟩]))
    "V" "evaluare_nationala" none none none 3 7 none none 180
    get_evaluare_nationala_structure _ 2 (by decide) rfl (by decide) (by decide)
    (by decide)

/-- C9 counterexample: with a pool of a single exercise both sections
select it, so the same (variant, exercise) pair is inserted twice; the
second insert is silently dropped by ON CONFLICT DO NOTHING, no error is
raised, and generation completes — a duplicate pair is not a hard error
and does not abort the operation. -/
theorem C9_counterexample :
    generate_variant ⟨[], []⟩ (fun _ => false) 7
        (fun _ => ([⟨1, some 5, none, none, none, []⟩],
                   [⟨1, some 5, none, none, none, []⟩]))
        "V" "evaluare_nationala" none none none 3 7 none none 180
      = (none,
         ⟨[⟨7, "V", "evaluare_nationala", none, none, none, 180, "DRAFT", some 60⟩],
          [⟨7, 1, 0, "Subiectul I"⟩]⟩,
         some ⟨7, 2, 60, [("Subiectul I", 6), ("Subiectul II", 3)]⟩) := by decide

/-- C9 amended: inserting a (variant, exercise) pair that is already
present leaves the store unchanged, raises no error, and the remaining
statements of the run still execute. -/
theorem C9_amended_duplicate_silently_ignored (st : Store) (r : VERow)
    (rest : List WriteOp) (i : Nat) (h : hasPair st r = true) :
    applyOp st (WriteOp.insertVE r) = st
    ∧ runWrites (fun _ => false) st (WriteOp.insertVE r :: rest) i
        = (none, applyOps st rest) := by
  have h1 : applyOp st (WriteOp.insertVE r) = st := by
    simp [applyOp, h]
  refine ⟨h1, ?_⟩
  simp only [runWrites, Bool.false_eq_true, if_false, h1, runWrites_noFail]

/-- Witness for the amended C9 at a concrete conflicting row. -/
theorem C9_amended_witness :
    applyOp ⟨[], [⟨7, 1, 0, "Subiectul I"⟩]⟩
        (WriteOp.insertVE ⟨7, 1, 1, "Subiectul II"⟩)
      = ⟨[], [⟨7, 1, 0, "Subiectul I"⟩]⟩
    ∧ runWrites (fun _ => false) ⟨[], [⟨7, 1, 0, "Subiectul I"⟩]⟩
        (WriteOp.insertVE ⟨7, 1, 1, "Subiectul II"⟩ :: []) 0
      = (none, applyOps ⟨[], [⟨7, 1, 0, "Subiectul I"⟩]⟩ []) :=
  C9_amended_duplicate_silently_ignored ⟨[], [⟨7, 1, 0, "Subiectul I"⟩]⟩
    ⟨7, 1, 1, "Subiectul II"⟩ [] 0 (by decide)

/-- C2 counterexample: a pool of seven exercises where the second section
re-selects two exercises already placed in the first section.  The two
conflicting inserts are dropped while the order counter keeps advancing,
so the persisted order indices are 0,1,2,3,4,5,7 — a gap at 6, not a
contiguous 0..6 for the 7 persisted rows — and the returned
exercise_count is 9, not 7. -/
theorem C2_counterexample :
    (fun out => (out.2.1.variant_exercises.map VERow.order_index,
                 out.2.1.variant_exercises.length,
                 out.2.2.map Summary.exercise_count))
      (generate_variant ⟨[], []⟩ (fun _ => false) 7
        (fun i => if i == 0
          then ([⟨1, some 5, none, none, none, []⟩, ⟨2, some 5, none, none, none, []⟩,
                 ⟨3, some 5, none, none, none, []⟩, ⟨4, some 5, none, none, none, []⟩,
                 ⟨5, some 5, none, none, none, []⟩, ⟨6, some 5, none, none, none, []⟩,
                 ⟨7, some 5, none, none, none, []⟩],
                [⟨1, some 5, none, none, none, []⟩, ⟨2, some 5, none, none, none, []⟩,
                 ⟨3, some 5, none, none, none, []⟩, ⟨4, some 5, none, none, none, []⟩,
                 ⟨5, some 5, none, none, none, []⟩, ⟨6, some 5, none, none, none, []⟩,
                 ⟨7, some 5, none, none, none, []⟩])
          else ([⟨1, some 5, none, none, none, []⟩, ⟨7, some 5, none, none, none, []⟩,
                 ⟨2, some 5, none, none, none, []⟩],
                [⟨1, some 5, none, none, none, []⟩, ⟨7, some 5, none, none, none, []⟩,
                 ⟨2, some 5, none, none, none, []⟩]))
        "V" "evaluare_nationala" none none none 3 7 none none 180)
      = ([0, 1, 2, 3, 4, 5, 7], 7, some 9) := by decide

/-- C2 amended: order_index is assigned by a single strictly increasing
counter across sections in template order, never reset; when the ids
selected across all sections are pairwise distinct (and the variant id is
fresh), every attempted row is persisted and the persisted order_index
values are exactly 0..k-1, with the returned exercise_count equal to k.
When duplicate ids are selected across sections, the conflicting rows are
silently dropped, leaving gaps, and exercise_count counts selections
rather than persisted rows. -/
theorem C2_amended_order_index (st : Store) (vid : Nat)
    (shuffles : Nat → List Exercise × List Exercise) (name exam_type : String)
    (profile : Option String) (year : Option Int) (session : Option String)
    (lo hi : Int) (pt xt : Option (List String)) (dm : Nat)
    (str : ExamStructure) (sels : List (List Nat))
    (hstr : getStructure exam_type profile = some str)
    (hsels : sels = generate_selections shuffles str.subjects exam_type lo hi pt xt)
    (hfreshE : ∀ x ∈ st.variant_exercises, x.variant_id ≠ vid)
    (hnodup : sels.flatten.Nodup) :
    (generate_variant st (fun _ => false) vid shuffles name exam_type profile year
        session lo hi pt xt dm).2.1.variant_exercises
      = st.variant_exercises ++ veRows vid str.subjects sels
    ∧ (veRows vid str.subjects sels).map VERow.order_index
        = List.range sels.flatten.length
    ∧ (generate_variant st (fun _ => false) vid shuffles name exam_type profile year
        session lo hi pt xt dm).2.2
      = some ⟨vid, sels.flatten.length, total_points str.subjects,
          summary_structure str.subjects⟩ := by
  subst hsels
  have hlen : (generate_selections shuffles str.subjects exam_type lo hi
      pt xt).length ≤ str.subjects.length :=
    le_of_eq (generate_selections_length shuffles str.subjects exam_type lo hi pt xt)
  have hrun := runWrites_noFail (generate_ops vid name exam_type profile year
    session dm str.subjects
    (generate_selections shuffles str.subjects exam_type lo hi pt xt)) st 0
  have hgen := generate_variant_success st (fun _ => false) vid shuffles name
    exam_type profile year session lo hi pt xt dm str hstr _ hrun
  refine ⟨?_, veRows_map_order_index vid str.subjects _ hlen, ?_⟩
  · rw [hgen]
    exact applyOps_generate_ve st vid name exam_type profile year session dm
      str.subjects _ hfreshE hnodup hlen
  · rw [hgen]

/-- Witness for the amended C2: nine pairwise distinct exercises fill both
sections; every row persists and the order indices are exactly 0..8. -/
theorem C2_amended_witness :
    (generate_variant ⟨[], []⟩ (fun _ => false) 7
        (fun i => if i == 0
          then ([⟨1, some 5, none, none, none, []⟩, ⟨2, some 5, none, none, none, []⟩,
                 ⟨3, some 5, none, none, none, []⟩, ⟨4, some 5, none, none, none, []⟩,
                 ⟨5, some 5, none, none, none, []⟩, ⟨6, some 5, none, none, none, []⟩,
                 ⟨7, some 5, none, none, none, []⟩, ⟨8, some 5, none, none, none, []⟩,
                 ⟨9, some 5, none, none, none, []⟩],
                [⟨1, some 5, none, none, none, []⟩, ⟨2, some 5, none, none, none, []⟩,
                 ⟨3, some 5, none, none, none, []⟩, ⟨4, some 5, none, none, none, []⟩,
                 ⟨5, some 5, none, none, none, []⟩, ⟨6, some 5, none, none, none, []⟩,
                 ⟨7, some 5, none, none, none, []⟩, ⟨8, some 5, none, none, none, []⟩,
                 ⟨9, some 5, none, none, none, []⟩])
          else ([⟨7, some 5, none, none, none, []⟩, ⟨8, some 5, none, none, none, []⟩,
                 ⟨9, some 5, none, none, none, []⟩],
                [⟨7, some 5, none, none, none, []⟩, ⟨8, some 5, none, none, none, []⟩,
                 ⟨9, some 5, none, none, none, []⟩]))
        "V" "evaluare_nationala" none none none 3 7 none none
        180).2.1.variant_exercises
      = [] ++ veRows 7 get_evaluare_nationala_structure.subjects
          (generate_selections
            (fun i => if i == 0
              then ([⟨1, some 5, none, none, none, []⟩, ⟨2, some 5, none, none, none, []⟩,
                     ⟨3, some 5, none, none, none, []⟩, ⟨4, some 5, none, none, none, []⟩,
                     ⟨5, some 5, none, none, none, []⟩, ⟨6, some 5, none, none, none, []⟩,
                     ⟨7, some 5, none, none, none, []⟩, ⟨8, some 5, none, none, none, []⟩,
                     ⟨9, some 5, none, none, none, []⟩],
                    [⟨1, some 5, none, none, none, []⟩, ⟨2, some 5, none, none, none, []⟩,
                     ⟨3, some 5, none, none, none, []⟩, ⟨4, some 5, none, none, none, []⟩,
                     ⟨5, some 5, none, none, none, []⟩, ⟨6, some 5, none, none, none, []⟩,
                     ⟨7, some 5, none, none, none, []⟩, ⟨8, some 5, none, none, none, []⟩,
                     ⟨9, some 5, none, none, none, []⟩])
              else ([⟨7, some 5, none, none, none, []⟩, ⟨8, some 5, none, none, none, []⟩,
                     ⟨9, some 5, none, none, none, []⟩],
                    [⟨7, some 5, none, none, none, []⟩, ⟨8, some 5, none, none, none, []⟩,
                     ⟨9, some 5, none, none, none, []⟩]))
            get_evaluare_nationala_structure.subjects "evaluare_nationala" 3 7
            none none) :=
  (C2_amended_order_index ⟨[], []⟩ 7
    (fun i => if i == 0
      then ([⟨1, some 5, none, none, none, []⟩, ⟨2, some 5, none, none, none, []⟩,
             ⟨3, some 5, none, none, none, []⟩, ⟨4, some 5, none, none, none, []⟩,
             ⟨5, some 5, none, none, none, []⟩, ⟨6, some 5, none, none, none, []⟩,
             ⟨7, some 5, none, none, none, []⟩, ⟨8, some 5, none, none, none, []⟩,
             ⟨9, some 5, none, none, none, []⟩],
            [⟨1, some 5, none, none, none, []⟩, ⟨2, some 5, none, none, none, []⟩,
             ⟨3, some 5, none, none, none, []⟩, ⟨4, some 5, none, none, none, []⟩,
             ⟨5, some 5, none, none, none, []⟩, ⟨6, some 5, none, none, none, []⟩,
             ⟨7, some 5, none, none, none, []⟩, ⟨8, some 5, none, none, none, []⟩,
             ⟨9, some 5, none, none, none, []⟩])
      else ([⟨7, some 5, none, none, none, []⟩, ⟨8, some 5, none, none, none, []⟩,
             ⟨9, some 5, none, none, none, []⟩],
            [⟨7, some 5, none, none, none, []⟩, ⟨8, some 5, none, none, none, []⟩,
             ⟨9, some 5, none, none, none, []⟩]))
    "V" "evaluare_nationala" none none none 3 7 none none 180
    get_evaluare_nationala_structure _ (by decide) rfl (by decide) (by decide)).1

/-- C4: on any successful generation, the reported total_points is the sum
over the template sections of points_each times count, the persisted
variant row carries the same value, and for the evaluare_nationala
template this value is 60 — all independently of the pool, the random
orders and hence of how many exercises were actually placed. -/
theorem C4_total_points_nominal (st : Store) (oracle : Nat → Bool) (vid : Nat)
    (shuffles : Nat → List Exercise × List Exercise) (name exam_type : String)
    (profile : Option String) (year : Option Int) (session : Option String)
    (lo hi : Int) (pt xt : Option (List String)) (dm : Nat)
    (str : ExamStructure) (sels : List (List Nat))
    (hstr : getStructure exam_type profile = some str)
    (hsels : sels = generate_selections shuffles str.subjects exam_type lo hi pt xt)
    (hfreshV : ∀ v ∈ st.variants, v.id ≠ vid)
    (hsucc : (generate_variant st oracle vid shuffles name exam_type profile year
        session lo hi pt xt dm).1 = none) :
    (generate_variant st oracle vid shuffles name exam_type profile year session
        lo hi pt xt dm).2.2
      = some ⟨vid, sels.flatten.length, total_points str.subjects,
          summary_structure str.subjects⟩
    ∧ (generate_variant st oracle vid shuffles name exam_type profile year session
        lo hi pt xt dm).2.1.variants
      = st.variants ++ [⟨vid, name, exam_type, profile, year, session, dm, "DRAFT",
          some (total_points str.subjects)⟩]
    ∧ total_points str.subjects
        = (str.subjects.map fun s => s.points_each * s.count).sum
    ∧ (exam_type = "evaluare_nationala" → total_points str.subjects = 60) := by
  subst hsels
  rcases hrun : runWrites oracle st (generate_ops vid name exam_type profile year
      session dm str.subjects
      (generate_selections shuffles str.subjects exam_type lo hi pt xt)) 0
    with ⟨o, st2⟩
  cases o with
  | some e =>
      have := generate_variant_fail st oracle vid shuffles name exam_type profile
        year session lo hi pt xt dm str hstr e st2 hrun
      rw [this] at hsucc
      exact absurd hsucc (by simp)
  | none =>
      have hst2 := runWrites_none _ _ _ _ _ hrun
      have hgen := generate_variant_success st oracle vid shuffles name exam_type
        profile year session lo hi pt xt dm str hstr st2 hrun
      refine ⟨?_, ?_, rfl, ?_⟩
      · rw [hgen]
      · rw [hgen]
        simp only
        rw [hst2]
        exact applyOps_generate_variants st vid name exam_type profile year
          session dm str.subjects _ hfreshV
      · intro hEN
        subst hEN
        simp only [getStructure] at hstr
        rw [if_neg (by decide), if_pos (by decide)] at hstr
        have : get_evaluare_nationala_structure = str := by
          injection hstr
        rw [← this]
        decide

/-- Witness for C4: an evaluare_nationala run over a pool of only four
eligible exercises under-fills (7 of 9 slots, with cross-section
repetition), yet the summary reports 60 points and the stored row carries
60. -/
theorem C4_witness :
    (generate_variant ⟨[], []⟩ (fun _ => false) 7
        (fun _ => ([⟨1, some 5, none, none, none, []⟩, ⟨2, some 5, none, none, none, []⟩,
                    ⟨3, some 5, none, none, none, []⟩, ⟨4, some 5, none, none, none, []⟩],
                   [⟨1, some 5, none, none, none, []⟩, ⟨2, some 5, none, none, none, []⟩,
                    ⟨3, some 5, none, none, none, []⟩, ⟨4, some 5, none, none, none, []⟩]))
        "V" "evaluare_nationala" none none none 3 7 none none 180).2.2
      = some ⟨7,
          (generate_selections
            (fun _ => ([⟨1, some 5, none, none, none, []⟩, ⟨2, some 5, none, none, none, []⟩,
                        ⟨3, some 5, none, none, none, []⟩, ⟨4, some 5, none, none, none, []⟩],
                       [⟨1, some 5, none, none, none, []⟩, ⟨2, some 5, none, none, none, []⟩,
                        ⟨3, some 5, none, none, none, []⟩, ⟨4, some 5, none, none, none, []⟩]))
            get_evaluare_nationala_structure.subjects "evaluare_nationala" 3 7
            none none).flatten.length,
          total_points get_evaluare_nationala_structure.subjects,
          summary_structure get_evaluare_nationala_structure.subjects⟩
    ∧ (generate_variant ⟨[], []⟩ (fun _ => false) 7
        (fun _ => ([⟨1, some 5, none, none, none, []⟩, ⟨2, some 5, none, none, none, []⟩,
                    ⟨3, some 5, none, none, none, []⟩, ⟨4, some 5, none, none, none, []⟩],
                   [⟨1, some 5, none, none, none, []⟩, ⟨2, some 5, none, none, none, []⟩,
                    ⟨3, some 5, none, none, none, []⟩, ⟨4, some 5, none, none, none, []⟩]))
        "V" "evaluare_nationala" none none none 3 7 none none 180).2.1.variants
      = [] ++ [⟨7, "V", "evaluare_nationala", none, none, none, 180, "DRAFT",
          some (total_points get_evaluare_nationala_structure.subjects)⟩]
    ∧ total_points get_evaluare_nationala_structure.subjects
        = (get_evaluare_nationala_structure.subjects.map
            fun s => s.points_each * s.count).sum
    ∧ ("evaluare_nationala" = "evaluare_nationala" →
        total_points get_evaluare_nationala_structure.subjects = 60) :=
  C4_total_points_nominal ⟨[], []⟩ (fun _ => false) 7
    (fun _ => ([⟨1, some 5, none, none, none, []⟩, ⟨2, some 5, none, none, none, []⟩,
                ⟨3, some 5, none, none, none, []⟩, ⟨4, some 5, none, none, none, []⟩],
               [⟨1, some 5, none, none, none, []⟩, ⟨2, some 5, none, none, none, []⟩,
                ⟨3, some 5, none, none, none, []⟩, ⟨4, some 5, none, none, none, []⟩]))
    "V" "evaluare_nationala" none none none 3 7 none none 180
    get_evaluare_nationala_structure _ (by decide) rfl (by decide) (by decide)

end EtoX
